import Mathlib

/-!
Verification of the autonomous cycle scheduler core of the ecco9 repository.

The development shallowly embeds the scheduler/state-machine core of two Go
files: the `AutonomousConsciousnessV4` object (fatigue/load accumulation,
automatic rest triggering, Start/Stop lifecycle, dream-cycle recovery, the
persistence stubs) and the `AutonomousEchoself` object (lifecycle states and
the monotone metric counters).  Go `float64` arithmetic is modelled with `ℚ`;
durations are modelled in minutes (`ℚ`) or whole minutes (`ℤ`) where the code
converts through `time.Duration`.  Each mutating method becomes a pure state
transformer.
-/

namespace Ecco9

/-! ### Load/fatigue model (`CognitiveLoadManager` in `AutonomousConsciousnessV4`) -/

/-- The fields of the Go `CognitiveLoadManager` struct that carry the
load/fatigue model (the bounded `loadHistory` ring is reporting-only and
omitted). -/
structure LoadManager where
  currentLoad : ℚ
  fatigueLevel : ℚ
  fatigueRate : ℚ
  recoveryRate : ℚ
  maxLoad : ℚ
deriving Repr, DecidableEq

/-- The load manager as built by `NewAutonomousConsciousnessV4`:
`currentLoad 0, fatigueLevel 0, fatigueRate 0.01, recoveryRate 0.05,
maxLoad 1.0`. -/
def defaultLoadManager : LoadManager :=
  { currentLoad := 0
    fatigueLevel := 0
    fatigueRate := 1/100
    recoveryRate := 1/20
    maxLoad := 1 }

/-- One tick of `cognitiveLoadMonitoring`: while awake the code executes
`fatigueLevel += currentLoad * fatigueRate` (no clamp is applied in this
write); while asleep the tick leaves the fatigue untouched. -/
def fatigueTick (awake : Bool) (lm : LoadManager) : LoadManager :=
  if awake then
    { lm with fatigueLevel := lm.fatigueLevel + lm.currentLoad * lm.fatigueRate }
  else lm

/-- The recovery write at the end of `dreamCycle`:
`fatigueLevel *= (1.0 - recoveryRate*duration.Minutes())`, then
`if fatigueLevel < 0 { fatigueLevel = 0 }` — a floor-at-zero clamp performed
in the same critical section as the write. -/
def recoverFatigue (lm : LoadManager) (durationMinutes : ℚ) : LoadManager :=
  let f := lm.fatigueLevel * (1 - lm.recoveryRate * durationMinutes)
  { lm with fatigueLevel := if f < 0 then 0 else f }

/-- `calculateCurrentLoad`: base load `0.1`, working-memory occupancy
`len(buffer)/capacity * 0.3`, `0.4` when a discussion is active, `0.3` when a
skill is being practiced, with the total capped at `1.0`. -/
def calculateCurrentLoad (bufLen capacity : ℕ) (hasDiscussion practicing : Bool) : ℚ :=
  let baseLoad : ℚ := 1/10
  let memoryLoad : ℚ := (bufLen : ℚ) / (capacity : ℚ) * (3/10)
  let discussionLoad : ℚ := if hasDiscussion then 2/5 else 0
  let practiceLoad : ℚ := if practicing then 3/10 else 0
  let totalLoad := baseLoad + memoryLoad + discussionLoad + practiceLoad
  if totalLoad > 1 then 1 else totalLoad

/-! ### Automatic rest trigger (`shouldInitiateRest`) -/

/-- `shouldInitiateRest`: returns `false` when `fatigue < fatigueThreshold`,
then `false` when `time.Since(startTime) < minWakeDuration` (the `startTime`
is reset on entering the awake phase by `Wake`), then `false` when the
discussion manager is present and reports active discussions, else `true`.
Times are in minutes. -/
def shouldInitiateRest (fatigue fatigueThreshold timeSinceWake minWakeDuration : ℚ)
    (mgrPresent hasActive : Bool) : Bool :=
  if fatigue < fatigueThreshold then false
  else if timeSinceWake < minWakeDuration then false
  else if mgrPresent && hasActive then false
  else true

/-! ### Rest duration (`Rest`) -/

/-- Go's `time.Duration(x)` conversion from `float64` truncates toward
zero. -/
def truncTowardZero (q : ℚ) : ℤ :=
  if 0 ≤ q then ⌊q⌋ else -⌊-q⌋

/-- The rest-duration computation of `Rest`, in minutes:
`restDuration := time.Duration(fatigue*60) * time.Minute` (the float
`fatigue*60` is truncated to a whole number by the `time.Duration`
conversion), then raised to at least 5 minutes and capped at 2 hours. -/
def restDurationMinutes (fatigue : ℚ) : ℤ :=
  let d := truncTowardZero (fatigue * 60)
  if d < 5 then 5 else if d > 120 then 120 else d

/-- Written from the spec's words, for comparison with `restDurationMinutes`:
"duration computed as `clamp(fatigue * dreamScaleMinutes, minDreamMinutes,
maxDreamMinutes)`", i.e. `clamp(fatigue*60, 5, 120)` minutes with no
truncation. -/
def specRestDurationMinutes (fatigue : ℚ) : ℚ :=
  min 120 (max 5 (fatigue * 60))

/-! ### The V4 object state and its lifecycle operations -/

/-- The shared mutable fields of `AutonomousConsciousnessV4` that the claims
concern: the `running` and `awake` flags, whether the five autonomous loops
have been launched, how many times `cancel()` has been invoked (resource
release), and the load manager. -/
structure V4State where
  running : Bool
  awake : Bool
  loopsStarted : Bool
  cancelCount : ℕ
  loadManager : LoadManager
deriving Repr, DecidableEq

/-- The state as built by `NewAutonomousConsciousnessV4`: not running, not
awake, no loops, default load manager. -/
def newV4 : V4State :=
  { running := false
    awake := false
    loopsStarted := false
    cancelCount := 0
    loadManager := defaultLoadManager }

/-- `Wake`: a no-op when already awake; otherwise sets `awake`, resets the
wake timestamp, and multiplies the fatigue by `0.3` (partial reset). -/
def Wake (st : V4State) : V4State :=
  if st.awake then st
  else
    { st with
      awake := true
      loadManager :=
        { st.loadManager with fatigueLevel := st.loadManager.fatigueLevel * (3/10) } }

/-- Index of the first subcomponent whose `Start()` returned an error, if
any; `Start` tries `aarCore`, `inferenceSystem`, `scheduler`,
`consciousnessStream`, `dream`, `metamodel` in order and returns at the first
failure. -/
def firstFailure : List Bool → Option ℕ
  | [] => none
  | b :: rest => if b then (firstFailure rest).map (· + 1) else some 0

/-- Result of `Start`. -/
inductive StartResult
  | ok
  | alreadyRunning
  | componentFailed (idx : ℕ)
deriving Repr, DecidableEq

/-- `Start`: under the lock, returns the "already running" error with no
writes when `running` is set; otherwise sets `running := true` (and the start
timestamp) before starting the subcomponents.  A subcomponent failure returns
that error — the `running` flag is not rolled back.  On full success the five
autonomous goroutines are launched and `Wake` is called. -/
def StartV4 (comps : List Bool) (st : V4State) : V4State × StartResult :=
  if st.running then (st, StartResult.alreadyRunning)
  else
    match firstFailure comps with
    | some i => ({ st with running := true }, StartResult.componentFailed i)
    | none => (Wake { st with running := true, loopsStarted := true }, StartResult.ok)

/-- Result of `Stop`. -/
inductive StopResult
  | ok
  | notRunning
deriving Repr, DecidableEq

/-- `Stop`: returns the "not running" error with no writes when `running` is
clear; otherwise clears `running`, saves the final state, and calls
`cancel()` exactly once. -/
def StopV4 (st : V4State) : V4State × StopResult :=
  if st.running then
    ({ st with running := false, cancelCount := st.cancelCount + 1 }, StopResult.ok)
  else (st, StopResult.notRunning)

/-- `Rest`: a no-op returning no duration when not awake; otherwise clears
`awake`, computes the rest duration from the current fatigue, and hands that
duration to the spawned `dreamCycle`. -/
def RestV4 (st : V4State) : V4State × Option ℤ :=
  if st.awake then
    ({ st with awake := false }, some (restDurationMinutes st.loadManager.fatigueLevel))
  else (st, none)

/-- `dreamCycle`: after sleeping for the given duration, applies the recovery
write and then auto-wakes via `Wake`. -/
def dreamCycleV4 (durationMinutes : ℚ) (st : V4State) : V4State :=
  Wake { st with loadManager := recoverFatigue st.loadManager durationMinutes }

/-- `loadPersistedStateV4` is a stub ("Stub implementation for Iteration 4"):
it logs and returns `nil` without restoring any field. -/
def loadPersistedStateV4 (st : V4State) : V4State × Option String :=
  (st, none)

/-- `saveCurrentStateV4` is a stub ("Stub implementation for Iteration 4"):
it logs and returns `nil` without recording any field. -/
def saveCurrentStateV4 (st : V4State) : V4State × Option String :=
  (st, none)

/-! ### The core `AutonomousEchoself` object (lifecycle states and counters) -/

/-- The `EchoselfState` enumeration of `core/autonomous_echoself.go`. -/
inductive EchoselfState
  | initializing
  | asleep
  | waking
  | awake
  | thinking
  | resting
  | dreaming
deriving Repr, DecidableEq

/-- The metric-bearing fields of `AutonomousEchoself`. -/
structure AEState where
  isAwake : Bool
  currentState : EchoselfState
  cyclesCompleted : ℕ
  wisdomCultivated : ℕ
  autonomousActions : ℕ
deriving Repr, DecidableEq

/-- The mutating events of `AutonomousEchoself`.  These are exactly the code
sites that write the metric counters or the lifecycle state outside
Start/Stop: the wisdom-extracted callback (`wisdomCultivated++`), the
dream-end goroutine (`EndDreamCycle` then `cyclesCompleted++`), the wake
handler, `initiateRest`, the entry of `initiateDream`, and the thought
handler (`autonomousActions++` when the payload is a string). -/
inductive AEEvent
  | wisdomExtracted
  | dreamComplete
  | wakeEvent
  | restInitiated
  | dreamInitiated
  | thoughtEvent (payloadIsString : Bool)
deriving Repr, DecidableEq

/-- State transformer of each event, read off the corresponding Go code
site. -/
def applyEvent : AEEvent → AEState → AEState
  | AEEvent.wisdomExtracted, s => { s with wisdomCultivated := s.wisdomCultivated + 1 }
  | AEEvent.dreamComplete, s => { s with cyclesCompleted := s.cyclesCompleted + 1 }
  | AEEvent.wakeEvent, s => { s with currentState := EchoselfState.awake }
  | AEEvent.restInitiated, s => { s with currentState := EchoselfState.resting }
  | AEEvent.dreamInitiated, s => { s with currentState := EchoselfState.dreaming }
  | AEEvent.thoughtEvent b, s =>
      if b then { s with autonomousActions := s.autonomousActions + 1 } else s

/-- A run of the system: the events applied in order. -/
def runEvents (es : List AEEvent) (s : AEState) : AEState :=
  es.foldl (fun t e => applyEvent e t) s

/-- The `cycles_completed` entry of `GetMetrics`. -/
def getMetricsCyclesCompleted (s : AEState) : ℕ :=
  s.cyclesCompleted

/-- One synthetic Dream cycle driven to completion: `initiateDream` entry
followed by the scheduled dream-end goroutine. -/
def driveDreamCycle (s : AEState) : AEState :=
  applyEvent AEEvent.dreamComplete (applyEvent AEEvent.dreamInitiated s)

/-- A state of the load manager with the load at its computed maximum:
`calculateCurrentLoad` over a full working memory (7 of 7 slots), an active
discussion and active skill practice. -/
def loadedManager : LoadManager :=
  { defaultLoadManager with currentLoad := calculateCurrentLoad 7 7 true true }

/-- A pre-save instance for the persistence round-trip scenario: awake with
fatigue 1/2. -/
def savedExample : V4State :=
  { newV4 with
    awake := true
    loadManager := { defaultLoadManager with fatigueLevel := 1/2 } }

/-! ### Theorems -/

/-- Closed form of iterated awake fatigue ticks: each tick adds
`currentLoad * fatigueRate` and changes no other field used here. -/
theorem fatigueTick_true_iterate (lm : LoadManager) (n : ℕ) :
    ((fatigueTick true)^[n] lm).fatigueLevel =
        lm.fatigueLevel + n * (lm.currentLoad * lm.fatigueRate) ∧
      ((fatigueTick true)^[n] lm).currentLoad = lm.currentLoad ∧
      ((fatigueTick true)^[n] lm).fatigueRate = lm.fatigueRate := by
  induction n with
  | zero => simp
  | succ k ih =>
    obtain ⟨h1, h2, h3⟩ := ih
    rw [Function.iterate_succ_apply']
    refine ⟨?_, ?_, ?_⟩ <;> simp [fatigueTick, h1, h2, h3]
    ring

/-- C1 counterexample: starting from the constructor state with the load at
its computed maximum value 1, the fatigue-accumulation tick of
`cognitiveLoadMonitoring` applies no upper clamp, so after 101 awake ticks
(about 8.5 minutes of the 5-second ticker, well inside the 30-minute minimum
wake duration during which no automatic rest can fire) the fatigue level is
101/100, strictly above 1 — the claimed [0,1] bound fails right after a
write. -/
theorem C1_counterexample :
    1 < ((fatigueTick true)^[101] loadedManager).fatigueLevel := by
  rw [(fatigueTick_true_iterate loadedManager 101).1]
  norm_num [loadedManager, defaultLoadManager, calculateCurrentLoad]

/-- The computed cognitive load expressed as the clamped weighted sum. -/
theorem calculateCurrentLoad_eq_min (bufLen capacity : ℕ) (d p : Bool) :
    calculateCurrentLoad bufLen capacity d p =
      min 1 ((1:ℚ)/10 + (bufLen : ℚ) / (capacity : ℚ) * (3/10) +
        (if d then 2/5 else 0) + (if p then 3/10 else 0)) := by
  simp only [calculateCurrentLoad]
  split_ifs <;>
    first
      | exact (min_eq_left (le_of_lt ‹_›)).symm
      | exact (min_eq_right (not_lt.mp ‹_›)).symm

/-- The computed cognitive load lies in [0,1] whenever the working-memory
buffer is within capacity. -/
theorem calculateCurrentLoad_bounds (bufLen capacity : ℕ)
    (_hb : bufLen ≤ capacity) (hc : 0 < capacity) (d p : Bool) :
    0 ≤ calculateCurrentLoad bufLen capacity d p ∧
      calculateCurrentLoad bufLen capacity d p ≤ 1 := by
  have hm0 : (0:ℚ) ≤ (bufLen : ℚ) / (capacity : ℚ) := by positivity
  have hmul : (0:ℚ) ≤ (bufLen : ℚ) / (capacity : ℚ) * (3/10) :=
    mul_nonneg hm0 (by norm_num)
  have hd : (0:ℚ) ≤ (if d = true then (2:ℚ)/5 else 0) := by
    split_ifs <;> norm_num
  have hp : (0:ℚ) ≤ (if p = true then (3:ℚ)/10 else 0) := by
    split_ifs <;> norm_num
  rw [calculateCurrentLoad_eq_min]
  constructor
  · exact le_min (by norm_num) (by linarith)
  · exact min_le_left 1 _

/-- C1 (amended): the recovery write in `dreamCycle` floors fatigue at 0 in
the same write operation; the computed cognitive load always lies in [0,1];
and the fatigue-accumulation tick keeps fatigue nonnegative — but that tick
applies no upper clamp, so the fatigue level is not bounded by 1 (the
counterexample exhibits a reachable write leaving it at 101/100). -/
theorem C1_amended_lower_clamps (lm : LoadManager) (dur : ℚ) (awake : Bool)
    (bufLen capacity : ℕ) (disc prac : Bool)
    (hb : bufLen ≤ capacity) (hc : 0 < capacity)
    (h0 : 0 ≤ lm.fatigueLevel) (h1 : 0 ≤ lm.currentLoad)
    (h2 : 0 ≤ lm.fatigueRate) :
    0 ≤ (recoverFatigue lm dur).fatigueLevel ∧
      0 ≤ calculateCurrentLoad bufLen capacity disc prac ∧
      calculateCurrentLoad bufLen capacity disc prac ≤ 1 ∧
      0 ≤ (fatigueTick awake lm).fatigueLevel := by
  obtain ⟨hl, hu⟩ := calculateCurrentLoad_bounds bufLen capacity hb hc disc prac
  refine ⟨?_, hl, hu, ?_⟩
  · simp only [recoverFatigue]
    split_ifs with h
    · exact le_refl 0
    · exact not_lt.mp h
  · cases awake with
    | false => simpa [fatigueTick] using h0
    | true =>
      simp only [fatigueTick, if_true]
      exact add_nonneg h0 (mul_nonneg h1 h2)

/-- Witness for C1 (amended) at a concrete state. -/
theorem C1_amended_lower_clamps_witness :
    0 ≤ (recoverFatigue defaultLoadManager 30).fatigueLevel ∧
      0 ≤ calculateCurrentLoad 3 7 true false ∧
      calculateCurrentLoad 3 7 true false ≤ 1 ∧
      0 ≤ (fatigueTick true defaultLoadManager).fatigueLevel :=
  C1_amended_lower_clamps defaultLoadManager 30 true 3 7 true false
    (by norm_num) (by norm_num) (by norm_num [defaultLoadManager])
    (by norm_num [defaultLoadManager]) (by norm_num [defaultLoadManager])

/-- C3 counterexample: at fatigue 1/8, the code truncates `0.125*60 = 7.5`
to 7 whole minutes before clamping, so the rest duration is 7 minutes, while
the claim's formula `clamp(fatigue*60, 5, 120)` gives 7.5 minutes. -/
theorem C3_counterexample :
    restDurationMinutes (1/8) = 7 ∧ specRestDurationMinutes (1/8) = 15/2 ∧
      ((7 : ℚ) ≠ 15/2) := by
  refine ⟨?_, ?_, by norm_num⟩
  · have hf : truncTowardZero ((1:ℚ)/8 * 60) = 7 := by
      simp only [truncTowardZero]
      rw [if_pos (by norm_num)]
      rw [show ((1:ℚ)/8 * 60) = 15/2 by norm_num]
      rw [Int.floor_eq_iff]
      norm_num
    simp only [restDurationMinutes, hf]
    norm_num
  · norm_num [specRestDurationMinutes]

/-- C3 (amended): when awake, `Rest` clears the awake flag and computes the
dream-processing duration as `clamp(trunc(fatigue*60) minutes, 5 minutes,
120 minutes)` — the product `fatigue*60` is truncated toward zero to a whole
number of minutes by the `time.Duration` conversion before clamping — and
the spawned dream cycle ends with a return to the awake state after exactly
the duration handed to it. -/
theorem C3_amended_rest_duration (st : V4State) (h : st.awake = true) :
    (RestV4 st).2 =
        some (min 120 (max 5 (truncTowardZero (st.loadManager.fatigueLevel * 60)))) ∧
      (RestV4 st).1.awake = false ∧
      ∀ d : ℚ, (dreamCycleV4 d (RestV4 st).1).awake = true := by
  refine ⟨?_, ?_, ?_⟩
  · simp only [RestV4, h, if_true, restDurationMinutes]
    congr 1
    generalize truncTowardZero (st.loadManager.fatigueLevel * 60) = d
    split_ifs with h1 h2 <;> simp [min_def, max_def] <;> omega
  · simp [RestV4, h]
  · intro d
    simp [dreamCycleV4, Wake, RestV4, h]

/-- Witness for C3 (amended) at a concrete awake state. -/
theorem C3_amended_rest_duration_witness :
    (RestV4 (Wake newV4)).2 =
        some (min 120 (max 5
          (truncTowardZero ((Wake newV4).loadManager.fatigueLevel * 60)))) ∧
      (RestV4 (Wake newV4)).1.awake = false ∧
      ∀ d : ℚ, (dreamCycleV4 d (RestV4 (Wake newV4)).1).awake = true :=
  C3_amended_rest_duration (Wake newV4) (by norm_num [Wake, newV4])

/-- C5: the persistence pair of `AutonomousConsciousnessV4` consists of
stubs — `saveCurrentStateV4` records nothing (and reports success) and
`loadPersistedStateV4` restores nothing — so saving an instance with fatigue
1/2 and loading on a fresh instance leaves the fresh instance's fatigue at
its constructor value 0, not the pre-save value 1/2: the claimed round-trip
fails on the code even though the struct's own documentation announces a
"Complete persistence layer". -/
theorem C5_persistence_stub_roundtrip_fails :
    (saveCurrentStateV4 savedExample).2 = none ∧
      (loadPersistedStateV4 newV4).1 = newV4 ∧
      (loadPersistedStateV4 newV4).1.loadManager.fatigueLevel ≠
        savedExample.loadManager.fatigueLevel := by
  refine ⟨rfl, rfl, ?_⟩
  norm_num [loadPersistedStateV4, newV4, savedExample, defaultLoadManager]

/-- C6: in the default configuration the recovery rate 0.05 strictly exceeds
the fatigue accumulation rate 0.01, and for every starting fatigue value in
[0,1] a rest of at least 20 minutes drives the fatigue to exactly 0 through
the floor-at-zero clamp of the recovery write — it is never negative. -/
theorem C6_recovery_drains_fatigue (f d : ℚ) (h0 : 0 ≤ f) (_h1 : f ≤ 1)
    (h2 : 20 ≤ d) :
    defaultLoadManager.fatigueRate < defaultLoadManager.recoveryRate ∧
      (recoverFatigue { defaultLoadManager with fatigueLevel := f } d).fatigueLevel
        = 0 ∧
      0 ≤ (recoverFatigue { defaultLoadManager with fatigueLevel := f } d).fatigueLevel := by
  have hkey :
      (recoverFatigue { defaultLoadManager with fatigueLevel := f } d).fatigueLevel
        = 0 := by
    simp only [recoverFatigue, defaultLoadManager]
    split_ifs with hneg
    · rfl
    · have hle : f * (1 - 1/20 * d) ≤ 0 := by nlinarith
      have hge := not_lt.mp hneg
      linarith
  exact ⟨by norm_num [defaultLoadManager], hkey, le_of_eq hkey.symm⟩

/-- Witness for C6 at fatigue 9/10 and the 54-minute rest the code would
compute for it. -/
theorem C6_recovery_drains_fatigue_witness :
    defaultLoadManager.fatigueRate < defaultLoadManager.recoveryRate ∧
      (recoverFatigue { defaultLoadManager with fatigueLevel := 9/10 } 54).fatigueLevel
        = 0 ∧
      0 ≤ (recoverFatigue { defaultLoadManager with fatigueLevel := 9/10 } 54).fatigueLevel :=
  C6_recovery_drains_fatigue (9/10) 54 (by norm_num) (by norm_num) (by norm_num)

/-- C7: `calculateCurrentLoad` equals the weighted sum of the independent
contributors — working-memory occupancy fraction with weight 0.3, an
active-discussion boolean contributing 0.4, a skill-practice boolean
contributing 0.3, plus the base term 0.1 — with the total clamped to at most
1, and the result always lies in [0,1]. -/
theorem C7_calculateCurrentLoad_weighted_sum (bufLen capacity : ℕ)
    (disc prac : Bool) (hb : bufLen ≤ capacity) (hc : 0 < capacity) :
    calculateCurrentLoad bufLen capacity disc prac =
        min 1 ((1:ℚ)/10 + (bufLen : ℚ) / (capacity : ℚ) * (3/10) +
          (if disc then 2/5 else 0) + (if prac then 3/10 else 0)) ∧
      0 ≤ calculateCurrentLoad bufLen capacity disc prac ∧
      calculateCurrentLoad bufLen capacity disc prac ≤ 1 :=
  ⟨calculateCurrentLoad_eq_min bufLen capacity disc prac,
    (calculateCurrentLoad_bounds bufLen capacity hb hc disc prac).1,
    (calculateCurrentLoad_bounds bufLen capacity hb hc disc prac).2⟩

/-- Witness for C7 at 3 of 7 working-memory slots, an active discussion, no
practice. -/
theorem C7_calculateCurrentLoad_weighted_sum_witness :
    calculateCurrentLoad 3 7 true false =
        min 1 ((1:ℚ)/10 + (3 : ℚ) / (7 : ℚ) * (3/10) +
          (if true then 2/5 else 0) + (if false then 3/10 else 0)) ∧
      0 ≤ calculateCurrentLoad 3 7 true false ∧
      calculateCurrentLoad 3 7 true false ≤ 1 := by
  have h := C7_calculateCurrentLoad_weighted_sum 3 7 true false
    (by norm_num) (by norm_num)
  exact_mod_cast h

/-- When every subcomponent starts successfully, no failure index exists. -/
theorem firstFailure_eq_none (comps : List Bool) (h : comps.all id = true) :
    firstFailure comps = none := by
  induction comps with
  | nil => rfl
  | cons b rest ih =>
    simp only [List.all_cons, Bool.and_eq_true, id] at h
    simp [firstFailure, h.1, ih h.2]

/-- C8: Start while already running returns the already-running error and
leaves the shared state untouched (no field changes, no loops launched);
Start on a non-running instance whose subcomponents all start successfully
returns success and marks the instance running. -/
theorem C8_start_already_running (st : V4State) (comps : List Bool) :
    (st.running = true → StartV4 comps st = (st, StartResult.alreadyRunning)) ∧
      (st.running = false → comps.all id = true →
        (StartV4 comps st).2 = StartResult.ok ∧
          (StartV4 comps st).1.running = true) := by
  constructor
  · intro h
    simp [StartV4, h]
  · intro h hall
    have hn := firstFailure_eq_none comps hall
    simp only [StartV4, h, Bool.false_eq_true, if_false, hn, Wake]
    constructor
    · trivial
    · split_ifs <;> rfl

/-- Witness for C8: both branches at the constructor state, with all six
subcomponents succeeding. -/
theorem C8_start_already_running_witness :
    (StartV4 (List.replicate 6 true) { newV4 with running := true } =
        ({ newV4 with running := true }, StartResult.alreadyRunning)) ∧
      ((StartV4 (List.replicate 6 true) newV4).2 = StartResult.ok ∧
        (StartV4 (List.replicate 6 true) newV4).1.running = true) :=
  ⟨(C8_start_already_running { newV4 with running := true }
      (List.replicate 6 true)).1 rfl,
    (C8_start_already_running newV4 (List.replicate 6 true)).2 rfl (by decide)⟩

/-- C9: Stop on a running instance succeeds and performs the `cancel`
release exactly once; a second Stop right after returns the not-running
error and changes nothing (no second release); Stop on a never-started
instance returns the error without mutating state. -/
theorem C9_stop_idempotent (st : V4State) :
    (st.running = true →
      (StopV4 st).2 = StopResult.ok ∧
        (StopV4 st).1.cancelCount = st.cancelCount + 1 ∧
        StopV4 (StopV4 st).1 = ((StopV4 st).1, StopResult.notRunning)) ∧
      (st.running = false → StopV4 st = (st, StopResult.notRunning)) := by
  constructor
  · intro h
    simp [StopV4, h]
  · intro h
    simp [StopV4, h]

/-- Witness for C9: a running instance stopped twice, and the never-started
constructor state. -/
theorem C9_stop_idempotent_witness :
    ((StopV4 { newV4 with running := true }).2 = StopResult.ok ∧
      (StopV4 { newV4 with running := true }).1.cancelCount =
        ({ newV4 with running := true } : V4State).cancelCount + 1 ∧
      StopV4 (StopV4 { newV4 with running := true }).1 =
        ((StopV4 { newV4 with running := true }).1, StopResult.notRunning)) ∧
      StopV4 newV4 = (newV4, StopResult.notRunning) :=
  ⟨(C9_stop_idempotent { newV4 with running := true }).1 rfl,
    (C9_stop_idempotent newV4).2 rfl⟩

/-- C10: when Start on a non-running instance hits a failing subcomponent,
it returns that component's error yet leaves the instance marked running —
the flag set at entry is not rolled back — with no autonomous loops launched
and the awake flag unchanged, so the next Start call reports already-running
even though startup never completed. -/
theorem C10_start_not_atomic (st : V4State) (comps : List Bool) (i : ℕ)
    (h : st.running = false) (hf : firstFailure comps = some i) :
    (StartV4 comps st).2 = StartResult.componentFailed i ∧
      (StartV4 comps st).1.running = true ∧
      (StartV4 comps st).1.loopsStarted = st.loopsStarted ∧
      (StartV4 comps st).1.awake = st.awake ∧
      (StartV4 comps (StartV4 comps st).1).2 = StartResult.alreadyRunning := by
  simp [StartV4, h, hf]

/-- Witness for C10: the constructor state with the second subcomponent (the
concurrent inference system) failing to start. -/
theorem C10_start_not_atomic_witness :
    (StartV4 [true, false, true, true, true, true] newV4).2 =
        StartResult.componentFailed 1 ∧
      (StartV4 [true, false, true, true, true, true] newV4).1.running = true ∧
      (StartV4 [true, false, true, true, true, true] newV4).1.loopsStarted =
        newV4.loopsStarted ∧
      (StartV4 [true, false, true, true, true, true] newV4).1.awake =
        newV4.awake ∧
      (StartV4 [true, false, true, true, true, true]
          (StartV4 [true, false, true, true, true, true] newV4).1).2 =
        StartResult.alreadyRunning :=
  C10_start_not_atomic newV4 [true, false, true, true, true, true] 1 rfl (by decide)

/-- C2: the automatic Awake-to-Resting guard `shouldInitiateRest` returns
`true` if and only if the three conjuncts all hold: fatigue at least the
threshold, elapsed awake time at least `minWakeDuration`, and no active
interactive session (the discussion manager, when present, reports no active
discussions). -/
theorem C2_shouldInitiateRest_iff (fatigue thr t minW : ℚ) (mgr act : Bool) :
    shouldInitiateRest fatigue thr t minW mgr act = true ↔
      (thr ≤ fatigue ∧ minW ≤ t ∧ ¬(mgr = true ∧ act = true)) := by
  unfold shouldInitiateRest
  split_ifs with h1 h2 h3
  · simp only [Bool.false_eq_true, false_iff]
    intro hc
    exact absurd hc.1 (not_le.mpr h1)
  · simp only [Bool.false_eq_true, false_iff]
    intro hc
    exact absurd hc.2.1 (not_le.mpr h2)
  · simp only [Bool.false_eq_true, false_iff]
    intro hc
    rcases Bool.and_eq_true mgr act |>.mp h3 with ⟨hm, ha⟩
    exact hc.2.2 ⟨hm, ha⟩
  · simp only [true_iff]
    refine ⟨not_lt.mp h1, not_lt.mp h2, ?_⟩
    intro ⟨hm, ha⟩
    exact h3 (Bool.and_eq_true mgr act |>.mpr ⟨hm, ha⟩)

/-- Each event can only keep or increase `cyclesCompleted`. -/
theorem applyEvent_cycles_le (e : Ecco9.AEEvent) (s : Ecco9.AEState) :
    s.cyclesCompleted ≤ (applyEvent e s).cyclesCompleted := by
  cases e with
  | thoughtEvent b => cases b <;> simp [applyEvent]
  | _ => simp [applyEvent]

/-- Over any run, `cyclesCompleted` is non-decreasing. -/
theorem runEvents_cycles_le (es : List Ecco9.AEEvent) (s : Ecco9.AEState) :
    s.cyclesCompleted ≤ (runEvents es s).cyclesCompleted := by
  induction es generalizing s with
  | nil => exact le_of_eq rfl
  | cons e rest ih =>
    calc s.cyclesCompleted ≤ (applyEvent e s).cyclesCompleted := applyEvent_cycles_le e s
      _ ≤ (runEvents rest (applyEvent e s)).cyclesCompleted := ih (applyEvent e s)
      _ = (runEvents (e :: rest) s).cyclesCompleted := rfl

/-- One driven dream cycle adds exactly one to the counter. -/
theorem driveDreamCycle_cycles (s : Ecco9.AEState) :
    (driveDreamCycle s).cyclesCompleted = s.cyclesCompleted + 1 := rfl

/-- C4: `cyclesCompleted` is non-decreasing over every run of the system's
events, and driving `n` synthetic Dream cycles to completion makes the
counter reported by `GetMetrics` exactly its starting value plus `n`. -/
theorem C4_cyclesCompleted_monotone_and_exact (es : List Ecco9.AEEvent)
    (s : Ecco9.AEState) (n : ℕ) :
    s.cyclesCompleted ≤ (runEvents es s).cyclesCompleted ∧
      getMetricsCyclesCompleted (driveDreamCycle^[n] s) =
        getMetricsCyclesCompleted s + n := by
  refine ⟨runEvents_cycles_le es s, ?_⟩
  induction n with
  | zero => rfl
  | succ k ih =>
    rw [Function.iterate_succ_apply', getMetricsCyclesCompleted,
      driveDreamCycle_cycles]
    rw [getMetricsCyclesCompleted] at ih
    rw [ih]
    rfl

end Ecco9
